import Mathlib

/-!
Verification of the botpoly trading agent core against its specification.

The TypeScript source is shallowly embedded: JavaScript numbers are modeled
as exact rationals, fallible calls return Option, the HTTP layer and the
reasoning-service responses are oracle inputs, and the decision loops are
explicit state-transition functions folded over candidate lists.

Each embedded definition is named after the source function it translates,
inside a namespace identifying the source file or variant:
  Svc        src/services/tradingEngine.ts, first section
  SvcB       src/services/tradingEngine.ts, third section
  P14        src/unnamed/part_014
  RiskManager  src/backend/engine/riskManager.ts, class RiskManager
  BackendRisk  src/unnamed/part_002 (functional backend riskManager)
  Clob       src/backend/clobClient.ts, class ClobClient
  GeminiSvc  src/services/geminiService.ts
  GeminiP13  src/unnamed/part_013, first section
  Core       src/unnamed/part_001, class TradingCore
  Backend    src/backend/tradingEngine.ts, second section
  Server     src/backend/server.ts
  AppM       src/App.tsx, second section (lines 411-501)
  P9         src/unnamed/part_009, second section (lines 708-793)
-/

namespace Botpoly

/-- One order-book level; the exchange supplies (price, size) string pairs
which the source reads with parseFloat. Modeled as exact rationals. -/
structure Level where
  price : ℚ
  size : ℚ
deriving Repr, DecidableEq

/-- Orderbook as in src/types.ts: bid and ask levels plus derived
spread and midPrice. -/
structure Orderbook where
  bids : List Level
  asks : List Level
  spread : ℚ
  midPrice : ℚ
deriving Repr, DecidableEq

/-- ExecutionMode from src/types (variant part_005). -/
inductive ExecutionMode where
  | SIMULATION
  | LIVE
deriving Repr, DecidableEq

/-- BotConfig from src/types.ts, restricted to the numeric fields the
embedded core functions read. -/
structure BotConfig where
  minLiquidityMultiplier : ℚ
  maxSpread : ℚ
  minEV : ℚ
  minConfidence : ℚ
  kellyMultiplier : ℚ
  minTradeSize : ℚ
  maxTradeSize : ℚ
  maxExposurePerTrade : ℚ
  maxMarketsPerScan : ℕ
  scanIntervalSeconds : ℚ
  mode : ExecutionMode
deriving Repr, DecidableEq

/-- RISK_LIMITS record shape from src/constants.tsx. -/
structure RiskLimits where
  maxSingleTradeExposure : ℚ
  kellyFraction : ℚ
  maxConcurrentTrades : ℕ
  minConfidence : ℚ
deriving Repr, DecidableEq

/-- RISK_LIMITS values from src/constants.tsx. -/
def RISK_LIMITS : RiskLimits :=
  { maxSingleTradeExposure := 1/20
    kellyFraction := 1/5
    maxConcurrentTrades := 3
    minConfidence := 7/10 }

/-- DEFAULT_CONFIG from src/constants.tsx (second section). -/
def DEFAULT_CONFIG : BotConfig :=
  { minLiquidityMultiplier := 3/2
    maxSpread := 1/20
    minEV := 1/100
    minConfidence := 7/10
    kellyMultiplier := 1/5
    minTradeSize := 1
    maxTradeSize := 50
    maxExposurePerTrade := 1/20
    maxMarketsPerScan := 3
    scanIntervalSeconds := 30
    mode := ExecutionMode.SIMULATION }

/-- The Kelly fraction (b*p - q)/b with b = 1/price - 1, exactly as inlined
in the sizing functions; named so theorems can refer to it. -/
def kellyFraction (marketPrice estimatedProb : ℚ) : ℚ :=
  ((1 / marketPrice - 1) * estimatedProb - (1 - estimatedProb)) / (1 / marketPrice - 1)

namespace Svc

/-- calculateEV, src/services/tradingEngine.ts lines 11-16. -/
def calculateEV (marketPrice estimatedProb : ℚ) : ℚ :=
  if marketPrice ≤ 0 ∨ 1 ≤ marketPrice then 0
  else estimatedProb * (1 - marketPrice) - (1 - estimatedProb) * marketPrice

/-- calculateKellySize, src/services/tradingEngine.ts lines 23-44. -/
def calculateKellySize (marketPrice estimatedProb balance : ℚ) : ℚ :=
  if marketPrice ≤ 0 ∨ 1 ≤ marketPrice then 0
  else
    let b := 1 / marketPrice - 1
    let p := estimatedProb
    let q := 1 - p
    let kf := (b * p - q) / b
    if kf ≤ 0 then 0
    else
      let sizedFraction := min (kf * RISK_LIMITS.kellyFraction) RISK_LIMITS.maxSingleTradeExposure
      balance * sizedFraction

/-- Summed notional depth over the top 5 ask levels, the loop
for i < min(asks.length, 5) accumulating size*price. -/
def askDepth5 (book : Orderbook) : ℚ :=
  ((book.asks.take 5).map (fun l => l.size * l.price)).sum

/-- validateLiquidity, src/services/tradingEngine.ts lines 112-126:
hard-coded 2 percent spread cap, 3x depth requirement, 500 floor. -/
def validateLiquidity (book : Orderbook) (targetSize : ℚ) : Bool :=
  if 1/50 < book.spread then false
  else
    let depthRequired := targetSize * 3
    let availableDepth := askDepth5 book
    decide (depthRequired ≤ availableDepth ∧ 500 ≤ availableDepth)

end Svc

namespace RiskManager

/-- RiskManager.calculateEV, src/backend/engine/riskManager.ts lines 8-14:
profit is taken as (1/price) - 1, not (1 - price). -/
def calculateEV (marketPrice estimatedProb : ℚ) : ℚ :=
  if marketPrice ≤ 0 ∨ 1 ≤ marketPrice then 0
  else
    let profit := 1 / marketPrice - 1
    estimatedProb * profit - (1 - estimatedProb)

/-- RiskManager.calculatePositionSize,
src/backend/engine/riskManager.ts lines 19-49. -/
def calculatePositionSize (marketPrice estimatedProb balance : ℚ)
    (config : BotConfig) : ℚ :=
  if marketPrice ≤ 0 ∨ 1 ≤ marketPrice then 0
  else
    let b := 1 / marketPrice - 1
    let p := estimatedProb
    let q := 1 - p
    let kf := (b * p - q) / b
    if kf ≤ 0 then 0
    else
      let adjustedFraction := kf * config.kellyMultiplier
      let size0 := balance * min adjustedFraction config.maxExposurePerTrade
      let size1 := max size0 0
      let size2 := min size1 config.maxTradeSize
      if size2 < config.minTradeSize then 0 else size2

end RiskManager

namespace BackendRisk

/-- calculateEV, src/unnamed/part_002 lines 3-6. -/
def calculateEV (marketPrice estimatedProb : ℚ) : ℚ :=
  if marketPrice ≤ 0 ∨ 1 ≤ marketPrice then 0
  else estimatedProb * (1 - marketPrice) - (1 - estimatedProb) * marketPrice

/-- calculatePositionSize, src/unnamed/part_002 lines 8-23; ACTIVE_CONFIG
is passed explicitly as cfg. -/
def calculatePositionSize (balance marketPrice estimatedProb : ℚ)
    (cfg : BotConfig) : ℚ :=
  if marketPrice ≤ 0 ∨ 1 ≤ marketPrice then 0
  else
    let b := 1 / marketPrice - 1
    let p := estimatedProb
    let q := 1 - p
    let kf := (b * p - q) / b
    if kf ≤ 0 then 0
    else
      let adjustedFraction := kf * cfg.kellyMultiplier
      let size0 := balance * min adjustedFraction cfg.maxExposurePerTrade
      let size1 := min size0 cfg.maxTradeSize
      if cfg.minTradeSize ≤ size1 then size1 else 0

end BackendRisk

/-- The raw body of a successful book response: data.bids and data.asks,
each already defaulted to the empty list when the field is missing. -/
structure RawBook where
  bids : List Level
  asks : List Level
deriving Repr, DecidableEq

/-- The shared tail of every fetchOrderbook variant: require both sides
non-empty, then derive midPrice from the best (first) levels and the
fractional spread relative to mid. -/
def bookFromRaw (data : RawBook) : Option Orderbook :=
  match data.bids, data.asks with
  | [], _ => none
  | _, [] => none
  | bb :: bs, ba :: bas =>
      let bestBid := bb.price
      let bestAsk := ba.price
      let midPrice := (bestBid + bestAsk) / 2
      let spread := (bestAsk - bestBid) / midPrice
      some { bids := bb :: bs, asks := ba :: bas, spread := spread, midPrice := midPrice }

namespace SvcB

/-- fetchOrderbook, src/services/tradingEngine.ts lines 308-325: absent on
empty token id, on HTTP failure or exception (resp = none), or on an empty
side. -/
def fetchOrderbook (tokenId : String) (resp : Option RawBook) : Option Orderbook :=
  if tokenId = "" then none
  else
    match resp with
    | none => none
    | some data => bookFromRaw data

/-- validateLiquidity, src/services/tradingEngine.ts lines 333-346:
hard-coded 8 percent spread cap, depth must cover tradeSize times the
multiplier argument (default 1.5). -/
def validateLiquidity (book : Orderbook) (tradeSize : ℚ) (multiplier : ℚ) : Bool :=
  if 2/25 < book.spread then false
  else
    let requiredDepth := tradeSize * multiplier
    decide (requiredDepth ≤ Svc.askDepth5 book)

end SvcB

namespace Clob

/-- ClobClient.fetchOrderbook, src/backend/clobClient.ts lines 18-37:
same as SvcB.fetchOrderbook but with no empty-token-id guard: the token id
argument is never examined. -/
def fetchOrderbook (_tokenId : String) (resp : Option RawBook) : Option Orderbook :=
  match resp with
  | none => none
  | some data => bookFromRaw data

end Clob

namespace P14

/-- validateLiquidity, src/unnamed/part_014 lines 109-120: hard-coded
5 percent spread cap, depth must cover the target size and a 50 floor. -/
def validateLiquidity (book : Orderbook) (targetSize : ℚ) : Bool :=
  if 1/20 < book.spread then false
  else
    let availableDepth := Svc.askDepth5 book
    decide (targetSize ≤ availableDepth ∧ 50 ≤ availableDepth)

end P14

/-- Signal from src/types.ts, restricted to the numeric fields the core
reads (the free-text reasoning and source list play no role in any claim). -/
structure Signal where
  marketId : String
  impliedProbability : ℚ
  confidence : ℚ
deriving Repr, DecidableEq

namespace GeminiSvc

/-- The JSON object parsed from the model response in
src/services/geminiService.ts: each field may be missing. -/
structure ParsedJson where
  impliedProbability : Option ℚ
  confidence : Option ℚ
deriving Repr, DecidableEq

/-- generateMarketSignal, src/services/geminiService.ts lines 69-84,
from the point where the response text has been JSON-parsed: every field
is defaulted when missing (?? 0.5), and a Signal is always returned,
never absent. -/
def generateMarketSignal (marketId : String) (data : ParsedJson) : Signal :=
  { marketId := marketId
    impliedProbability := data.impliedProbability.getD (1/2)
    confidence := data.confidence.getD (1/2) }

end GeminiSvc

namespace GeminiP13

/-- The model response in src/unnamed/part_013 lines 51-62: the trimmed
response text (none when undefined), and the results of the
IMPLIED_PROBABILITY and CONFIDENCE field extractions over that text, taken
as oracle inputs (the source locates them with regular expressions). -/
structure AiResponse where
  text : Option String
  probMatch : Option ℚ
  confMatch : Option ℚ
deriving Repr, DecidableEq

/-- generateMarketSignal, src/unnamed/part_013 lines 28-85, after the
response arrives: absent when the text is missing or empty, absent when
the probability field cannot be located, otherwise a Signal with the
extracted probability and the confidence defaulted to 0.5 when missing. -/
def generateMarketSignal (marketId : String) (r : AiResponse) : Option Signal :=
  match r.text with
  | none => none
  | some t =>
      if t = "" then none
      else
        match r.probMatch with
        | none => none
        | some prob =>
            some { marketId := marketId
                   impliedProbability := prob
                   confidence := r.confMatch.getD (1/2) }

end GeminiP13

/-- Trade from src/types (variant part_005), restricted to the fields the
loops compute; side is always YES in every embedded call site. -/
structure Trade where
  marketId : String
  entryPrice : ℚ
  size : ℚ
  edge : ℚ
  isSimulated : Bool
deriving Repr, DecidableEq

namespace ExecutionEngine

/-- ExecutionEngine.execute with simulateFill / placeLiveOrder,
src/backend/engine/riskManager.ts second section (class ExecutionEngine):
both paths return a Trade filled at the book mid price; only the
isSimulated flag differs. -/
def execute (mode : ExecutionMode) (marketId : String) (book : Orderbook)
    (size edge : ℚ) : Trade :=
  { marketId := marketId
    entryPrice := book.midPrice
    size := size
    edge := edge
    isSimulated := mode = ExecutionMode.SIMULATION }

end ExecutionEngine

namespace Core

/-- The run-level counters of TradingCore (src/unnamed/part_001) that its
candidate loop reads and writes. -/
structure BotStats where
  totalTrades : ℕ
  cumulativeSpent : ℚ
  usdcBalance : ℚ
deriving Repr, DecidableEq

/-- The TradingCore state visible to one runLoop iteration. -/
structure CoreState where
  isRunning : Bool
  stats : BotStats
  activeTrades : List Trade
deriving Repr, DecidableEq

/-- One scan candidate as runLoop sees it: the market (yes-token already
selected), the getOrderbook result and the generateMarketSignal result,
both oracle inputs from the network layer. -/
structure LoopCandidate where
  marketId : String
  book : Option Orderbook
  signal : Option Signal
deriving Repr, DecidableEq

/-- The body of the for-loop over candidates in TradingCore.runLoop,
src/unnamed/part_001 lines 73-137, for a single candidate: each early
continue leaves the state unchanged; a fill appends the trade (list capped
at 10) and updates totalTrades, cumulativeSpent and usdcBalance. There is
no break after a fill: the caller folds this over all candidates. -/
def processCandidate (config : BotConfig) (s : CoreState) (c : LoopCandidate) :
    CoreState :=
  if s.isRunning = false then s
  else
    match c.book with
    | none => s
    | some book =>
        if config.maxSpread < book.spread then s
        else
          match c.signal with
          | none => s
          | some sig =>
              let ev := RiskManager.calculateEV book.midPrice sig.impliedProbability
              if ev < config.minEV then s
              else if sig.confidence < config.minConfidence then s
              else
                let size := RiskManager.calculatePositionSize book.midPrice
                  sig.impliedProbability s.stats.usdcBalance config
                if size ≤ 0 then s
                else
                  let requiredDepth := size * config.minLiquidityMultiplier
                  let availableDepth := Svc.askDepth5 book
                  if availableDepth < requiredDepth then s
                  else
                    let trade := ExecutionEngine.execute config.mode c.marketId
                      book size ev
                    { s with
                      stats := { totalTrades := s.stats.totalTrades + 1
                                 cumulativeSpent := s.stats.cumulativeSpent + size
                                 usdcBalance := s.stats.usdcBalance - size }
                      activeTrades := (trade :: s.activeTrades).take 10 }

/-- The candidate loop of TradingCore.runLoop: candidates are the first
maxMarketsPerScan markets, processed sequentially with no break after a
successful execution. -/
def runLoopCandidates (config : BotConfig) (s : CoreState)
    (markets : List LoopCandidate) : CoreState :=
  (markets.take config.maxMarketsPerScan).foldl (processCandidate config) s

end Core

namespace Backend

/-- One scanMarkets candidate as backend runIteration sees it (a
{market, book} pair), together with the oracle results of the signal call
and of executeOrder (which may return null in this variant). -/
structure IterCandidate where
  marketId : String
  book : Orderbook
  signal : Option Signal
  execResult : Option Trade
deriving Repr, DecidableEq

/-- The for-loop of runIteration, src/backend/tradingEngine.ts second
section lines 61-91: skip on wide spread, missing signal, weak edge or
zero size; on the first candidate whose executeOrder returns a trade, push
it and break. -/
def runIterationGo (balance : ℚ) (cfg : BotConfig) :
    List IterCandidate → List Trade
  | [] => []
  | c :: rest =>
      if cfg.maxSpread < c.book.spread then runIterationGo balance cfg rest
      else
        match c.signal with
        | none => runIterationGo balance cfg rest
        | some sig =>
            let ev := BackendRisk.calculateEV c.book.midPrice sig.impliedProbability
            if ev < cfg.minEV ∨ sig.confidence < cfg.minConfidence then
              runIterationGo balance cfg rest
            else
              let size := BackendRisk.calculatePositionSize balance c.book.midPrice
                sig.impliedProbability cfg
              if size ≤ 0 then runIterationGo balance cfg rest
              else
                match c.execResult with
                | none => runIterationGo balance cfg rest
                | some t => [t]

/-- runIteration, src/backend/tradingEngine.ts lines 57-94: the executed
trades of one iteration (ACTIVE_CONFIG passed explicitly). -/
def runIteration (balance : ℚ) (cfg : BotConfig)
    (candidates : List IterCandidate) : List Trade :=
  runIterationGo balance cfg candidates

end Backend

namespace Server

/-- The module-level state of src/backend/server.ts: the running flag,
the ACTIVE_CONFIG binding, and whether a loop invocation is scheduled. -/
structure ServerState where
  running : Bool
  activeConfig : BotConfig
  loopScheduled : Bool
deriving Repr, DecidableEq

/-- startBot, src/backend/server.ts lines 11-45: if already running do
nothing, otherwise set running, store the config verbatim via updateConfig
(a shallow copy, no field is altered), and start the loop. No property of
the config is inspected. -/
def startBot (config : BotConfig) (s : ServerState) : ServerState :=
  if s.running then s
  else { running := true, activeConfig := config, loopScheduled := true }

end Server

namespace Core

/-- The TradingCore fields written by start (src/unnamed/part_001). -/
structure StartState where
  isRunning : Bool
  config : Option BotConfig
  allocatedCapital : ℚ
  cumulativeSpent : ℚ
  activeTrades : List Trade
deriving Repr, DecidableEq

/-- TradingCore.start, src/unnamed/part_001 lines 38-47: unconditionally
snapshot the config verbatim, set running, reset the budget counters, and
kick off runLoop. No property of the config is inspected. -/
def start (config : BotConfig) (allocatedUsdc : ℚ) (_s : StartState) :
    StartState :=
  { isRunning := true
    config := some config
    allocatedCapital := allocatedUsdc
    cumulativeSpent := 0
    activeTrades := [] }

end Core

/-- BotStep from src/types.ts. -/
inductive BotStep where
  | IDLE
  | SCANNING
  | ANALYZING
  | RISK_CHECK
  | EXECUTING
  | MONITORING
  | COOLING
  | EXHAUSTED
deriving Repr, DecidableEq

/-- A trade record as the UI loops create it (the fields they compute). -/
structure UiTrade where
  marketId : String
  entryPrice : ℚ
  size : ℚ
  edge : ℚ
deriving Repr, DecidableEq

/-- One fetched market paired with the outcome of its generateMarketSignal
call: none models the estimator call throwing (rate-limit retries
exhausted or provider fault). -/
structure UiCand where
  marketId : String
  currentPrice : ℚ
  signal : Option Signal
deriving Repr, DecidableEq

namespace AppM

/-- The stats the App.tsx (second section) loop reads and writes. -/
structure Stats where
  allocatedCapital : ℚ
  cumulativeSpent : ℚ
  balance : ℚ
  totalTrades : ℕ
deriving Repr, DecidableEq

/-- The App.tsx component state one runIteration touches: the running
flag, the displayed step, the stats, the trade list, and whether a timer
for the next invocation is pending. -/
structure State where
  isRunning : Bool
  currentStep : BotStep
  stats : Stats
  activeTrades : List UiTrade
  timerPending : Bool
deriving Repr, DecidableEq

/-- Result of the candidate for-loop: either an exception escaped to the
outer catch, or the loop finished with the exec flag. -/
inductive CandOutcome where
  | thrown (s : State)
  | finished (s : State) (executed : Bool)

/-- The for-loop over candidates in App.tsx runIteration (second section,
lines 438-489). All stats reads use base, the stats captured by the
useCallback closure when the iteration began; setStats updates are applied
functionally to the current state. A signal-call exception aborts the loop
to the outer catch (no inner try in this variant); after a fill the next
head hits the tradeExecuted break. -/
def candLoop (base : Stats) (s : State) (executed : Bool) :
    List UiCand → CandOutcome
  | [] => CandOutcome.finished s executed
  | c :: rest =>
      if executed then CandOutcome.finished s executed
      else
        let s1 := { s with currentStep := BotStep.ANALYZING }
        match c.signal with
        | none => CandOutcome.thrown s1
        | some sig =>
            let s2 := { s1 with currentStep := BotStep.RISK_CHECK }
            let ev := Svc.calculateEV c.currentPrice sig.impliedProbability
            if 0 < ev ∧ RISK_LIMITS.minConfidence ≤ sig.confidence then
              let size0 := Svc.calculateKellySize c.currentPrice
                sig.impliedProbability base.balance
              let currentRemaining := base.allocatedCapital - base.cumulativeSpent
              let size := if base.allocatedCapital < base.cumulativeSpent + size0
                then currentRemaining else size0
              if 1/2 ≤ size then
                let s3 :=
                  { s2 with
                    currentStep := BotStep.EXECUTING
                    stats := { s2.stats with
                               cumulativeSpent := s2.stats.cumulativeSpent + size
                               balance := s2.stats.balance - size
                               totalTrades := s2.stats.totalTrades + 1 }
                    activeTrades :=
                      ({ marketId := c.marketId, entryPrice := c.currentPrice
                         size := size, edge := ev } :: s2.activeTrades).take 10 }
                candLoop base s3 true rest
              else candLoop base s2 false rest
            else candLoop base s2 false rest

/-- runIteration, src/App.tsx second section lines 411-501. Guard on the
running flag; budget gate remaining <= 0.1 fires stopBot(BUDGET) which
clears the running flag and the pending timer and shows EXHAUSTED — all
before SCANNING. Otherwise scan: an empty market list just reschedules;
else evaluate the top 3 candidates; a thrown candidate reschedules with
backoff from the catch block; a finished loop shows MONITORING and
schedules the next iteration. -/
def runIteration (s : State) (markets : List UiCand) : State :=
  if s.isRunning = false then s
  else if s.stats.allocatedCapital - s.stats.cumulativeSpent ≤ 1/10 then
    { s with isRunning := false, currentStep := BotStep.EXHAUSTED
             timerPending := false }
  else
    let s1 := { s with currentStep := BotStep.SCANNING }
    match markets with
    | [] => { s1 with timerPending := true }
    | _ :: _ =>
        match candLoop s.stats s1 false (markets.take 3) with
        | CandOutcome.thrown s2 => { s2 with timerPending := true }
        | CandOutcome.finished s2 _ =>
            { s2 with currentStep := BotStep.MONITORING, timerPending := true }

/-- A whole run seen from one state: fold runIteration over the market
lists the successive scheduled invocations would observe. -/
def runFrom (s : State) (scans : List (List UiCand)) : State :=
  scans.foldl runIteration s

end AppM

namespace P9

/-- The stats the part_009 (second section) loop reads and writes. -/
structure Stats where
  allocatedCapital : ℚ
  cumulativeSpent : ℚ
  usdcBalance : ℚ
  totalTrades : ℕ
deriving Repr, DecidableEq

/-- The part_009 component state one runIteration touches; connected
models address and providerRef being present. -/
structure State where
  isRunning : Bool
  connected : Bool
  currentStep : BotStep
  stats : Stats
  activeTrades : List UiTrade
  timerPending : Bool
deriving Repr, DecidableEq

/-- The for-loop over candidates in part_009 runIteration (second section,
lines 740-786): like the App.tsx loop but candidate faults are caught by
the inner try and simply skip to the next candidate. -/
def candLoop (base : Stats) (s : State) (executed : Bool) :
    List UiCand → State
  | [] => s
  | c :: rest =>
      if executed ∨ s.isRunning = false then s
      else
        let s1 := { s with currentStep := BotStep.ANALYZING }
        match c.signal with
        | none => candLoop base s1 false rest
        | some sig =>
            let s2 := { s1 with currentStep := BotStep.RISK_CHECK }
            let ev := Svc.calculateEV c.currentPrice sig.impliedProbability
            if 0 < ev ∧ RISK_LIMITS.minConfidence ≤ sig.confidence then
              let size0 := Svc.calculateKellySize c.currentPrice
                sig.impliedProbability base.usdcBalance
              let size := if base.allocatedCapital < base.cumulativeSpent + size0
                then base.allocatedCapital - base.cumulativeSpent else size0
              if 1/2 ≤ size then
                let s3 :=
                  { s2 with
                    currentStep := BotStep.EXECUTING
                    stats := { s2.stats with
                               cumulativeSpent := s2.stats.cumulativeSpent + size
                               usdcBalance := s2.stats.usdcBalance - size
                               totalTrades := s2.stats.totalTrades + 1 }
                    activeTrades :=
                      ({ marketId := c.marketId, entryPrice := c.currentPrice
                         size := size, edge := ev } :: s2.activeTrades).take 10 }
                candLoop base s3 true rest
              else candLoop base s2 false rest
            else candLoop base s2 false rest

/-- runIteration, src/unnamed/part_009 second section lines 708-793.
Guards: running and connected; a failed balance sync throws to the catch
which just reschedules; low gas (matic < 0.1) stops the bot with the USER
reason (IDLE); then the budget gate remaining <= 0.5 fires
stopBot(BUDGET) showing EXHAUSTED, before SCANNING; otherwise scan the top
5 candidates and finish in MONITORING with the next iteration scheduled. -/
def runIteration (s : State) (matic : Option ℚ) (markets : List UiCand) :
    State :=
  if s.isRunning = false ∨ s.connected = false then s
  else
    match matic with
    | none => { s with timerPending := true }
    | some m =>
        if m < 1/10 then
          { s with isRunning := false, currentStep := BotStep.IDLE
                   timerPending := false }
        else if s.stats.allocatedCapital - s.stats.cumulativeSpent ≤ 1/2 then
          { s with isRunning := false, currentStep := BotStep.EXHAUSTED
                   timerPending := false }
        else
          let s1 := { s with currentStep := BotStep.SCANNING }
          match markets with
          | [] => { s1 with timerPending := true }
          | _ :: _ =>
              let s2 := candLoop s.stats s1 false (markets.take 5)
              { s2 with currentStep := BotStep.MONITORING, timerPending := true }

end P9

/-! ### Concrete instances used by witnesses and counterexamples -/

/-- A fully permissive configuration (every gate wide open, simulation
mode) used to drive the TradingCore candidate loop. -/
def cfgOpen : BotConfig :=
  { minLiquidityMultiplier := 1
    maxSpread := 1
    minEV := 0
    minConfidence := 0
    kellyMultiplier := 1
    minTradeSize := 1
    maxTradeSize := 1000
    maxExposurePerTrade := 1
    maxMarketsPerScan := 5
    scanIntervalSeconds := 30
    mode := ExecutionMode.SIMULATION }

/-- A configuration violating the run-start validity rules: minTradeSize
exceeds maxTradeSize and the liquidity multiplier is below 1. -/
def cfgBad : BotConfig :=
  { minLiquidityMultiplier := 1/2
    maxSpread := 1/20
    minEV := 1/100
    minConfidence := 7/10
    kellyMultiplier := 1/5
    minTradeSize := 10
    maxTradeSize := 5
    maxExposurePerTrade := 1/20
    maxMarketsPerScan := 3
    scanIntervalSeconds := 30
    mode := ExecutionMode.SIMULATION }

/-- Best bid 0.4, one deep ask level at 0.6: mid 0.5, spread 0.4. -/
def bookHalf : Orderbook :=
  { bids := [{ price := 2/5, size := 100 }]
    asks := [{ price := 3/5, size := 1000 }]
    spread := 2/5
    midPrice := 1/2 }

/-- A book whose spread 0.06 exceeds DEFAULT_CONFIG.maxSpread = 0.05 but
not the hard-coded 0.08 cap, with ample ask depth. -/
def bookWide : Orderbook :=
  { bids := [{ price := 47/100, size := 100 }]
    asks := [{ price := 1/2, size := 100 }]
    spread := 3/50
    midPrice := 97/200 }

/-- A tight book with exactly 50 of notional ask depth on one level. -/
def bookDepth50 : Orderbook :=
  { bids := [{ price := 49/100, size := 100 }]
    asks := [{ price := 1/2, size := 100 }]
    spread := 1/100
    midPrice := 99/200 }

/-- A strong signal clearing every gate of cfgOpen. -/
def sigStrong : Signal :=
  { marketId := "mkt", impliedProbability := 9/10, confidence := 1 }

/-- First TradingCore candidate: book present, strong signal. -/
def candA : Core.LoopCandidate :=
  { marketId := "mktA", book := some bookHalf, signal := some sigStrong }

/-- Second TradingCore candidate, identical gates. -/
def candB : Core.LoopCandidate :=
  { marketId := "mktB", book := some bookHalf, signal := some sigStrong }

/-- TradingCore state at the top of an iteration: running, 100 USDC. -/
def stCore : Core.CoreState :=
  { isRunning := true
    stats := { totalTrades := 0, cumulativeSpent := 0, usdcBalance := 100 }
    activeTrades := [] }

/-- The empty token id. -/
def emptyTok : String := ""

/-- A non-empty token id. -/
def tokA : String := "tokenA"

/-- A raw book response with one level on each side. -/
def rawC7 : RawBook :=
  { bids := [{ price := 2/5, size := 10 }]
    asks := [{ price := 3/5, size := 10 }] }

/-- The orderbook the fetchOrderbook variants derive from rawC7. -/
def bookC7 : Orderbook :=
  { bids := [{ price := 2/5, size := 10 }]
    asks := [{ price := 3/5, size := 10 }]
    spread := (3/5 - 2/5) / ((2/5 + 3/5) / 2)
    midPrice := (2/5 + 3/5) / 2 }

/-- A non-running backend server state with the default config loaded. -/
def stIdle : Server.ServerState :=
  { running := false, activeConfig := DEFAULT_CONFIG, loopScheduled := false }

/-- A fresh TradingCore before start. -/
def coreIdle : Core.StartState :=
  { isRunning := false, config := none, allocatedCapital := 0
    cumulativeSpent := 0, activeTrades := [] }

/-- A market id used in the signal-parsing instances. -/
def midSig : String := "mktSig"

/-- A model response whose text carries no probability field. -/
def respNoProb : GeminiP13.AiResponse :=
  { text := some "The outcome is uncertain.", probMatch := none, confMatch := none }

/-- A parsed JSON object with both numeric fields missing. -/
def jsonEmpty : GeminiSvc.ParsedJson :=
  { impliedProbability := none, confidence := none }

/-- App.tsx state at the top of an iteration of the exhaustion scenario:
allocatedCapital 100, cumulativeSpent 99.95, still running. -/
def stateC4 : AppM.State :=
  { isRunning := true
    currentStep := BotStep.MONITORING
    stats := { allocatedCapital := 100, cumulativeSpent := 1999/20
               balance := 1/20, totalTrades := 7 }
    activeTrades := []
    timerPending := true }

/-- part_009 state for the same scenario. -/
def stateC4p9 : P9.State :=
  { isRunning := true
    connected := true
    currentStep := BotStep.MONITORING
    stats := { allocatedCapital := 100, cumulativeSpent := 1999/20
               usdcBalance := 1/20, totalTrades := 7 }
    activeTrades := []
    timerPending := true }

/-! ### Helper lemmas -/

/-- For a tradable price the decimal-odds denominator b = 1/price - 1 is
positive. -/
theorem odds_pos (price : ℚ) (h0 : 0 < price) (h1 : price < 1) :
    0 < 1 / price - 1 := by
  have : 1 < 1 / price := one_lt_one_div h0 h1
  linarith

/-- The inlined Kelly fraction simplifies to (prob - price)/(1 - price). -/
theorem kellyFraction_eq (price prob : ℚ) (h0 : 0 < price) (h1 : price < 1) :
    kellyFraction price prob = (prob - price) / (1 - price) := by
  have hp : price ≠ 0 := ne_of_gt h0
  have hb : 1 / price - 1 ≠ 0 := ne_of_gt (odds_pos price h0 h1)
  have h1p : (1 : ℚ) - price ≠ 0 := by intro h; apply hb; field_simp; linarith
  unfold kellyFraction
  field_simp
  ring

/-- The Kelly fraction is non-positive exactly when the estimated
probability does not exceed the market price. -/
theorem kellyFraction_nonpos_iff (price prob : ℚ) (h0 : 0 < price)
    (h1 : price < 1) : kellyFraction price prob ≤ 0 ↔ prob ≤ price := by
  rw [kellyFraction_eq price prob h0 h1]
  have hpos : (0 : ℚ) < 1 - price := by linarith
  rw [div_nonpos_iff]
  constructor
  · rintro (⟨h2, h3⟩ | ⟨h2, h3⟩) <;> linarith
  · intro h
    right
    exact ⟨by linarith, le_of_lt hpos⟩

/-- The Kelly fraction is positive exactly when the estimated probability
exceeds the market price. -/
theorem kellyFraction_pos_iff (price prob : ℚ) (h0 : 0 < price)
    (h1 : price < 1) : 0 < kellyFraction price prob ↔ price < prob := by
  rw [← not_le, ← not_le, not_iff_not]
  exact kellyFraction_nonpos_iff price prob h0 h1

/-- The guard of every sizing and EV function is inactive on (0,1). -/
theorem price_guard_neg (price : ℚ) (h0 : 0 < price) (h1 : price < 1) :
    ¬(price ≤ 0 ∨ 1 ≤ price) := by
  push_neg
  exact ⟨h0, h1⟩

/-- Whenever the Kelly fraction is non-positive the backend sizer stakes
nothing (its zero gate, regardless of the price guard). -/
theorem calculatePositionSize_eq_zero (price prob balance : ℚ)
    (config : BotConfig) (hf : kellyFraction price prob ≤ 0) :
    RiskManager.calculatePositionSize price prob balance config = 0 := by
  unfold kellyFraction at hf
  simp only [RiskManager.calculatePositionSize]
  split_ifs <;> rfl

/-- Whenever the Kelly fraction is non-positive the services sizer stakes
nothing. -/
theorem calculateKellySize_eq_zero (price prob balance : ℚ)
    (hf : kellyFraction price prob ≤ 0) :
    Svc.calculateKellySize price prob balance = 0 := by
  unfold kellyFraction at hf
  simp only [Svc.calculateKellySize]
  split_ifs <;> rfl

/-- bookFromRaw is absent exactly when a side of the raw book is empty. -/
theorem bookFromRaw_none_iff (d : RawBook) :
    bookFromRaw d = none ↔ d.bids = [] ∨ d.asks = [] := by
  rcases d with ⟨bids, asks⟩
  cases bids <;> cases asks <;> simp [bookFromRaw]

/-- When bookFromRaw returns a book, the sides are passed through and the
mid price and spread are derived from the best levels. -/
theorem bookFromRaw_some (d : RawBook) (book : Orderbook)
    (h : bookFromRaw d = some book) :
    book.bids = d.bids ∧ book.asks = d.asks ∧
    ∃ bb bs ba bas, d.bids = bb :: bs ∧ d.asks = ba :: bas ∧
      book.midPrice = (bb.price + ba.price) / 2 ∧
      book.spread = (ba.price - bb.price) / book.midPrice := by
  rcases d with ⟨bids, asks⟩
  cases bids with
  | nil => simp [bookFromRaw] at h
  | cons bb bs =>
      cases asks with
      | nil => simp [bookFromRaw] at h
      | cons ba bas =>
          simp only [bookFromRaw, Option.some.injEq] at h
          subst h
          exact ⟨rfl, rfl, bb, bs, ba, bas, rfl, rfl, rfl, rfl⟩

/-! ### C1 -/

/-- C1, counterexample. The claim states that calculateEV equals
prob*(1-price) - (1-prob)*price for every variant; at price = 0.4 and
prob = 0.6 that formula yields 0.2, but RiskManager.calculateEV (which
uses profit = 1/price - 1) returns 0.5. -/
theorem c1_counterexample :
    RiskManager.calculateEV (2/5) (3/5) = 1/2 ∧
    (3/5 : ℚ) * (1 - 2/5) - (1 - 3/5) * (2/5) = 1/5 ∧
    RiskManager.calculateEV (2/5) (3/5) ≠
      (3/5 : ℚ) * (1 - 2/5) - (1 - 3/5) * (2/5) := by
  refine ⟨?_, ?_, ?_⟩ <;> norm_num [RiskManager.calculateEV]

/-- C1, amended. For price in (0,1) and any prob, the services calculateEV
equals prob*(1-price) - (1-prob)*price, is monotone in prob, and has the
stated endpoint values; RiskManager.calculateEV instead equals that
formula divided by price. -/
theorem c1_amended (price prob : ℚ) (h0 : 0 < price) (h1 : price < 1) :
    Svc.calculateEV price prob = prob * (1 - price) - (1 - prob) * price ∧
    (∀ p1 p2 : ℚ, p1 ≤ p2 → Svc.calculateEV price p1 ≤ Svc.calculateEV price p2) ∧
    Svc.calculateEV price 0 = -price ∧
    Svc.calculateEV price 1 = 1 - price ∧
    RiskManager.calculateEV price prob =
      (prob * (1 - price) - (1 - prob) * price) / price := by
  have hg := price_guard_neg price h0 h1
  have hev : ∀ p : ℚ, Svc.calculateEV price p = p * (1 - price) - (1 - p) * price := by
    intro p
    simp only [Svc.calculateEV, if_neg hg]
  refine ⟨hev prob, ?_, ?_, ?_, ?_⟩
  · intro p1 p2 hle
    rw [hev p1, hev p2]
    nlinarith
  · rw [hev 0]; ring
  · rw [hev 1]; ring
  · simp only [RiskManager.calculateEV, if_neg hg]
    have hp : price ≠ 0 := ne_of_gt h0
    field_simp
    ring

/-- C1, witness: the amended theorem evaluated at price 0.4, prob 0.6. -/
theorem c1_witness :
    Svc.calculateEV (2/5) (3/5) = (3/5 : ℚ) * (1 - 2/5) - (1 - 3/5) * (2/5) :=
  (c1_amended (2/5) (3/5) (by norm_num) (by norm_num)).1

/-! ### C2 -/

/-- C2, counterexample. The claim asserts the position-sizing functions
never return more than config.maxTradeSize; the services calculateKellySize
applies no trade-size caps at all and, at price 0.5, prob 0.9 and a
100000 balance, stakes 5000 — far above the default maxTradeSize of 50. -/
theorem c2_counterexample :
    Svc.calculateKellySize (1/2) (9/10) 100000 = 5000 ∧
    DEFAULT_CONFIG.maxTradeSize = 50 ∧
    ¬(Svc.calculateKellySize (1/2) (9/10) 100000 ≤ DEFAULT_CONFIG.maxTradeSize) := by
  refine ⟨?_, ?_, ?_⟩ <;>
    norm_num [Svc.calculateKellySize, RISK_LIMITS, DEFAULT_CONFIG, min_def]

/-- C2, amended. RiskManager.calculatePositionSize returns 0 whenever the
Kelly fraction is non-positive, returns 0 rather than any value below
config.minTradeSize, and (for a non-negative maxTradeSize) is never
negative and never exceeds config.maxTradeSize; the services
calculateKellySize shares only the Kelly-fraction zero gate and enforces
no trade-size bounds. -/
theorem c2_amended (price prob balance : ℚ) (config : BotConfig)
    (hmax : 0 ≤ config.maxTradeSize) :
    (kellyFraction price prob ≤ 0 →
      RiskManager.calculatePositionSize price prob balance config = 0) ∧
    (RiskManager.calculatePositionSize price prob balance config <
        config.minTradeSize →
      RiskManager.calculatePositionSize price prob balance config = 0) ∧
    0 ≤ RiskManager.calculatePositionSize price prob balance config ∧
    RiskManager.calculatePositionSize price prob balance config ≤
      config.maxTradeSize ∧
    (kellyFraction price prob ≤ 0 →
      Svc.calculateKellySize price prob balance = 0) := by
  unfold kellyFraction
  simp only [RiskManager.calculatePositionSize, Svc.calculateKellySize]
  split_ifs with h1 h2 h3
  · exact ⟨fun _ => rfl, fun _ => rfl, le_refl 0, hmax, fun _ => rfl⟩
  · exact ⟨fun _ => rfl, fun _ => rfl, le_refl 0, hmax, fun _ => rfl⟩
  · exact ⟨fun _ => rfl, fun _ => rfl, le_refl 0, hmax, fun hf => absurd hf h2⟩
  · exact ⟨fun hf => absurd hf h2, fun hlt => absurd hlt h3,
      le_min (le_max_right _ _) hmax, min_le_right _ _,
      fun hf => absurd hf h2⟩

/-- C2, witness: at price 0.5 and prob 0.25 the Kelly fraction is
negative, so the backend sizer stakes nothing. -/
theorem c2_witness :
    RiskManager.calculatePositionSize (1/2) (1/4) 100 DEFAULT_CONFIG = 0 :=
  (c2_amended (1/2) (1/4) 100 DEFAULT_CONFIG
    (by norm_num [DEFAULT_CONFIG])).1 (by norm_num [kellyFraction])

/-! ### C3 -/

/-- C3, counterexample. TradingCore.runLoop has no break after a
successful execution: with two candidates that both clear every gate, a
single iteration creates two trades (the second sized against the balance
left by the first). -/
theorem c3_counterexample :
    (Core.runLoopCandidates cfgOpen stCore [candA, candB]).stats.totalTrades = 2 := by
  norm_num [Core.runLoopCandidates, Core.processCandidate, cfgOpen, stCore,
    candA, candB, bookHalf, sigStrong, RiskManager.calculateEV,
    RiskManager.calculatePositionSize, Svc.askDepth5, ExecutionEngine.execute,
    min_def, max_def, List.take, List.foldl]

/-- C3, amended. The backend runIteration does satisfy at-most-one-trade:
it breaks out of the candidate loop after the first successful
executeOrder, so the executed-trades list never holds more than one
trade. -/
theorem c3_amended (balance : ℚ) (cfg : BotConfig)
    (cands : List Backend.IterCandidate) :
    (Backend.runIteration balance cfg cands).length ≤ 1 := by
  unfold Backend.runIteration
  induction cands with
  | nil => simp [Backend.runIterationGo]
  | cons c rest ih =>
      simp only [Backend.runIterationGo]
      repeat' split
      all_goals first | exact ih | simp

/-! ### C4 -/

/-- C4. In both UI loops the budget gate runs at the top of the iteration,
before SCANNING: when the remaining budget is at most the epsilon (0.1 in
App.tsx, 0.5 in part_009, the latter reached only with the balance sync
succeeding and gas sufficient), the state becomes EXHAUSTED, the running
flag is cleared and no next invocation is scheduled; a stopped loop is
inert, so no later scan list can ever re-enter SCANNING in that run. -/
theorem c4_budget_gate :
    (∀ (s : AppM.State) (markets : List UiCand), s.isRunning = true →
      s.stats.allocatedCapital - s.stats.cumulativeSpent ≤ 1/10 →
      AppM.runIteration s markets =
        { s with isRunning := false, currentStep := BotStep.EXHAUSTED
                 timerPending := false }) ∧
    (∀ (s : AppM.State) (markets : List UiCand), s.isRunning = false →
      AppM.runIteration s markets = s) ∧
    (∀ (s : AppM.State) (scans : List (List UiCand)), s.isRunning = false →
      AppM.runFrom s scans = s) ∧
    (∀ (s : P9.State) (m : ℚ) (markets : List UiCand), s.isRunning = true →
      s.connected = true → ¬(m < 1/10) →
      s.stats.allocatedCapital - s.stats.cumulativeSpent ≤ 1/2 →
      P9.runIteration s (some m) markets =
        { s with isRunning := false, currentStep := BotStep.EXHAUSTED
                 timerPending := false }) := by
  have hstop : ∀ (s : AppM.State) (markets : List UiCand), s.isRunning = false →
      AppM.runIteration s markets = s := by
    intro s markets h
    simp [AppM.runIteration, h]
  refine ⟨?_, hstop, ?_, ?_⟩
  · intro s markets hrun hle
    have hg : (s.isRunning = false) = False := by simp [hrun]
    simp only [AppM.runIteration, hg, if_false]
    rw [if_pos hle]
  · intro s scans h
    induction scans with
    | nil => rfl
    | cons l ls ih =>
        have : AppM.runFrom s (l :: ls) = AppM.runFrom (AppM.runIteration s l) ls := rfl
        rw [this, hstop s l h]
        exact ih
  · intro s m markets hrun hconn hm hle
    have hg : (s.isRunning = false ∨ s.connected = false) = False := by
      simp [hrun, hconn]
    simp only [P9.runIteration, hg, if_false]
    rw [if_neg hm, if_pos hle]

/-- C4, witness: the gate fires in the scenario allocatedCapital = 100,
cumulativeSpent = 99.95 in both loop variants. -/
theorem c4_witness :
    AppM.runIteration stateC4 [] =
      { stateC4 with isRunning := false, currentStep := BotStep.EXHAUSTED
                     timerPending := false } ∧
    P9.runIteration stateC4p9 (some 1) [] =
      { stateC4p9 with isRunning := false, currentStep := BotStep.EXHAUSTED
                       timerPending := false } :=
  ⟨c4_budget_gate.1 stateC4 [] rfl (by norm_num [stateC4]),
   c4_budget_gate.2.2.2 stateC4p9 1 [] rfl rfl (by norm_num)
     (by norm_num [stateC4p9])⟩

/-! ### C5 -/

/-- C5, counterexample. The services generateMarketSignal never returns
absent: when the parsed JSON carries no probability field it substitutes
the neutral default 0.5 instead, contradicting the claim. -/
theorem c5_counterexample :
    GeminiSvc.generateMarketSignal midSig jsonEmpty =
      { marketId := midSig, impliedProbability := 1/2, confidence := 1/2 } ∧
    (GeminiSvc.generateMarketSignal midSig jsonEmpty).impliedProbability = 1/2 :=
  ⟨rfl, rfl⟩

/-- C5, amended. The part_013 generateMarketSignal does return absent
whenever the probability field cannot be located, and every embedded
caller skips a candidate whose signal is absent without touching the
state: the TradingCore candidate step is the identity there, and the
backend iteration simply moves on to the remaining candidates. -/
theorem c5_amended :
    (∀ (mid : String) (r : GeminiP13.AiResponse), r.probMatch = none →
      GeminiP13.generateMarketSignal mid r = none) ∧
    (∀ (cfg : BotConfig) (s : Core.CoreState) (c : Core.LoopCandidate),
      c.signal = none → Core.processCandidate cfg s c = s) ∧
    (∀ (balance : ℚ) (cfg : BotConfig) (c : Backend.IterCandidate)
      (rest : List Backend.IterCandidate), c.signal = none →
      Backend.runIterationGo balance cfg (c :: rest) =
        Backend.runIterationGo balance cfg rest) := by
  refine ⟨?_, ?_, ?_⟩
  · intro mid r h
    simp only [GeminiP13.generateMarketSignal, h]
    cases r.text with
    | none => rfl
    | some t => simp
  · intro cfg s c h
    simp only [Core.processCandidate, h]
    cases c.book <;> simp
  · intro balance cfg c rest h
    simp only [Backend.runIterationGo, h]
    split_ifs <;> rfl

/-- C5, witness: the no-probability response produces an absent signal in
the part_013 variant. -/
theorem c5_witness : GeminiP13.generateMarketSignal midSig respNoProb = none :=
  c5_amended.1 midSig respNoProb rfl

/-! ### C6 -/

/-- C6, counterexample. The spread threshold is hard-coded, not taken from
the configuration: a book with spread 0.06 passes the 0.08 check of the
second services validateLiquidity even though 0.06 exceeds
DEFAULT_CONFIG.maxSpread = 0.05, and with ample depth the book validates. -/
theorem c6_counterexample :
    SvcB.validateLiquidity bookWide 10 (3/2) = true ∧
    DEFAULT_CONFIG.maxSpread < bookWide.spread := by
  constructor
  · norm_num [SvcB.validateLiquidity, Svc.askDepth5, bookWide]
  · norm_num [DEFAULT_CONFIG, bookWide]

/-- C6, amended. Each validateLiquidity variant rejects any book whose
spread exceeds its own hard-coded threshold (0.02, 0.08 and 0.05
respectively), regardless of depth; none of them consults
config.maxSpread. -/
theorem c6_amended :
    (∀ (book : Orderbook) (size : ℚ), 1/50 < book.spread →
      Svc.validateLiquidity book size = false) ∧
    (∀ (book : Orderbook) (size mult : ℚ), 2/25 < book.spread →
      SvcB.validateLiquidity book size mult = false) ∧
    (∀ (book : Orderbook) (size : ℚ), 1/20 < book.spread →
      P14.validateLiquidity book size = false) := by
  refine ⟨?_, ?_, ?_⟩
  · intro book size h
    unfold Svc.validateLiquidity
    rw [if_pos h]
  · intro book size mult h
    unfold SvcB.validateLiquidity
    rw [if_pos h]
  · intro book size h
    unfold P14.validateLiquidity
    rw [if_pos h]

/-- C6, witness: the wide-spread book is rejected by the first services
variant, whose threshold 0.02 it does exceed. -/
theorem c6_witness : Svc.validateLiquidity bookWide 10 = false :=
  c6_amended.1 bookWide 10 (by norm_num [bookWide])

/-! ### C7 -/

/-- C7, counterexample. ClobClient.fetchOrderbook never examines the token
id: with an empty token id and a successful two-sided response it returns
a book, where the claim requires absence. -/
theorem c7_counterexample :
    Clob.fetchOrderbook emptyTok (some rawC7) = some bookC7 ∧
    emptyTok = "" ∧
    Clob.fetchOrderbook emptyTok (some rawC7) ≠ none := by
  refine ⟨rfl, rfl, ?_⟩
  have h : Clob.fetchOrderbook emptyTok (some rawC7) = some bookC7 := rfl
  rw [h]
  simp

/-- C7, amended. The services fetchOrderbook is absent exactly when the
token id is empty, the call fails, or a side is empty; when it returns a
book the mid price and spread are as specified. ClobClient.fetchOrderbook
is absent exactly when the call fails or a side is empty: it lacks the
empty-token-id guard. -/
theorem c7_amended :
    (∀ (t : String) (r : Option RawBook),
      SvcB.fetchOrderbook t r = none ↔
        t = "" ∨ r = none ∨ ∃ d, r = some d ∧ (d.bids = [] ∨ d.asks = [])) ∧
    (∀ (t : String) (d : RawBook) (book : Orderbook),
      SvcB.fetchOrderbook t (some d) = some book →
      book.bids = d.bids ∧ book.asks = d.asks ∧
      ∃ bb bs ba bas, d.bids = bb :: bs ∧ d.asks = ba :: bas ∧
        book.midPrice = (bb.price + ba.price) / 2 ∧
        book.spread = (ba.price - bb.price) / book.midPrice) ∧
    (∀ (t : String) (r : Option RawBook),
      Clob.fetchOrderbook t r = none ↔
        r = none ∨ ∃ d, r = some d ∧ (d.bids = [] ∨ d.asks = [])) := by
  refine ⟨?_, ?_, ?_⟩
  · intro t r
    by_cases ht : t = ""
    · simp [SvcB.fetchOrderbook, ht]
    · simp only [SvcB.fetchOrderbook, if_neg ht]
      cases r with
      | none => simp [ht]
      | some d => simp [ht, bookFromRaw_none_iff]
  · intro t d book h
    simp only [SvcB.fetchOrderbook] at h
    split_ifs at h
    exact bookFromRaw_some d book h
  · intro t r
    unfold Clob.fetchOrderbook
    cases r with
    | none => simp
    | some d => simp [bookFromRaw_none_iff]

/-- C7, witness: the amended characterization applied to the concrete
two-level response under a non-empty token id. -/
theorem c7_witness :
    bookC7.bids = rawC7.bids ∧ bookC7.asks = rawC7.asks ∧
    ∃ bb bs ba bas, rawC7.bids = bb :: bs ∧ rawC7.asks = ba :: bas ∧
      bookC7.midPrice = (bb.price + ba.price) / 2 ∧
      bookC7.spread = (ba.price - bb.price) / bookC7.midPrice :=
  c7_amended.2.1 tokA rawC7 bookC7 rfl

/-! ### C8 -/

/-- C8. No run-start validation exists: startBot accepts a configuration
with minTradeSize above maxTradeSize and a liquidity multiplier below 1,
stores it verbatim (nothing is clamped), marks the engine running and
schedules the first iteration; TradingCore.start does the same. The claim
that such a run is rejected before the first iteration is contradicted. -/
theorem c8_code_eval :
    Server.startBot cfgBad stIdle =
      { running := true, activeConfig := cfgBad, loopScheduled := true } ∧
    (Server.startBot cfgBad stIdle).activeConfig = cfgBad ∧
    cfgBad.maxTradeSize < cfgBad.minTradeSize ∧
    cfgBad.minLiquidityMultiplier < 1 ∧
    (Core.start cfgBad 100 coreIdle).isRunning = true ∧
    (Core.start cfgBad 100 coreIdle).config = some cfgBad := by
  refine ⟨rfl, rfl, ?_, ?_, rfl, rfl⟩
  · norm_num [cfgBad]
  · norm_num [cfgBad]

/-! ### C9 -/

/-- C9. On (0,1) prices, both sizers stake only with genuine edge: the
Kelly fraction is positive exactly when prob exceeds price, so
prob <= price forces a zero size, and a strictly positive size implies
prob > price. -/
theorem c9_no_edge_no_stake (price prob balance : ℚ) (config : BotConfig)
    (h0 : 0 < price) (h1 : price < 1) :
    (prob ≤ price →
      RiskManager.calculatePositionSize price prob balance config = 0) ∧
    (0 < RiskManager.calculatePositionSize price prob balance config →
      price < prob) ∧
    (prob ≤ price → Svc.calculateKellySize price prob balance = 0) ∧
    (0 < Svc.calculateKellySize price prob balance → price < prob) ∧
    (0 < kellyFraction price prob ↔ price < prob) := by
  have hiff := kellyFraction_nonpos_iff price prob h0 h1
  refine ⟨?_, ?_, ?_, ?_, kellyFraction_pos_iff price prob h0 h1⟩
  · intro hle
    exact calculatePositionSize_eq_zero price prob balance config (hiff.mpr hle)
  · intro hpos
    by_contra hnot
    push_neg at hnot
    rw [calculatePositionSize_eq_zero price prob balance config
      (hiff.mpr hnot)] at hpos
    exact lt_irrefl 0 hpos
  · intro hle
    exact calculateKellySize_eq_zero price prob balance (hiff.mpr hle)
  · intro hpos
    by_contra hnot
    push_neg at hnot
    rw [calculateKellySize_eq_zero price prob balance (hiff.mpr hnot)] at hpos
    exact lt_irrefl 0 hpos

/-- C9, witness: at price 0.5 and prob 1/3 (no edge) the backend sizer
returns 0. -/
theorem c9_witness :
    RiskManager.calculatePositionSize (1/2) (1/3) 100 DEFAULT_CONFIG = 0 :=
  (c9_no_edge_no_stake (1/2) (1/3) 100 DEFAULT_CONFIG
    (by norm_num) (by norm_num)).1 (by norm_num)

/-! ### C10 -/

/-- C10. The strict validators enforce an absolute depth floor: whatever
the trade size, a book whose top-5 ask notional depth is below 500 fails
the first services validateLiquidity, and below 50 fails the part_014
variant. -/
theorem c10_depth_floor :
    (∀ (book : Orderbook) (size : ℚ), Svc.askDepth5 book < 500 →
      Svc.validateLiquidity book size = false) ∧
    (∀ (book : Orderbook) (size : ℚ), Svc.askDepth5 book < 50 →
      P14.validateLiquidity book size = false) := by
  constructor
  · intro book size h
    unfold Svc.validateLiquidity
    split_ifs with h1
    · rfl
    · simp only [decide_eq_false_iff_not]
      rintro ⟨h2, h3⟩
      exact absurd h3 (not_le.mpr h)
  · intro book size h
    unfold P14.validateLiquidity
    split_ifs with h1
    · rfl
    · simp only [decide_eq_false_iff_not]
      rintro ⟨h2, h3⟩
      exact absurd h3 (not_le.mpr h)

/-- C10, witness: a book with exactly 50 of ask depth covers a size-10
trade three times over, yet the first services validator rejects it
because 50 is below its 500 floor. -/
theorem c10_witness :
    Svc.askDepth5 bookDepth50 = 50 ∧
    (10 : ℚ) * 3 ≤ Svc.askDepth5 bookDepth50 ∧
    Svc.validateLiquidity bookDepth50 10 = false :=
  ⟨by norm_num [Svc.askDepth5, bookDepth50],
   by norm_num [Svc.askDepth5, bookDepth50],
   c10_depth_floor.1 bookDepth50 10 (by norm_num [Svc.askDepth5, bookDepth50])⟩

end Botpoly
